import Mathlib

/-!
Verification of the bike-sharing collection pipeline in `src/main.py`.

The development shallowly embeds the program's data model and operations:

* `PyDateTime` models Python `datetime` values; `PyDateTime.isoformat` and
  `parseIso` model `datetime.isoformat()` / `datetime.fromisoformat()` for the
  `YYYY-MM-DD?HH:MM:SS[.ffffff][(+|-)HH:MM]` shape those functions exchange
  (`fromisoformat` in the CPython versions contemporary with this code accepts
  an arbitrary separator character at position 10, a 6-digit fraction, and an
  offset in hours and minutes; the rarely used 3-digit fraction and
  seconds-in-offset alternatives are not modelled, and the per-month day bound
  is relaxed to 31 as `isoformat` output of a constructible date never
  exceeds it).
* `JVal` models dynamically typed JSON/Python values; `Dict` models a Python
  dict with string keys, with `Dict.getItem` raising `KeyError` on a missing
  key exactly as `raw_data[k]` does.
* `Station`, `Station.to_repr`, `Station.from_repr`, and
  `StationBuilder.from_trentino_data_hub_repr` embed the classes `Station` and
  `StationBuilder`.
* `StationHandler` (JSON file), `StationHandlerSQLite` and
  `StationHandlerMySQL` embed the three storage handlers as explicit state
  transformers over their store states, with injectable failure points where
  a claim is about partial failure.
* `runCycle` / `cycleAndSaveFile` embed one iteration of the `__main__`
  collection loop.

Fallible Python code (raised exceptions) is modelled with `Except PyErr` or a
returned `Option PyErr` alongside the post-state.
-/

/-- Python error values raised by the embedded code. -/
inductive PyErr where
  /-- `KeyError(k)` from a dict subscript with a missing key. -/
  | keyError (k : String)
  /-- `IndexError` from a list subscript out of range. -/
  | indexError
  /-- `TypeError` from subscripting or parsing a value of the wrong type. -/
  | typeError
  /-- `FileNotFoundError` from `open(path, "r")` on a missing file. -/
  | fileNotFound
  /-- `json.JSONDecodeError` from `json.load` on content that is not JSON. -/
  | jsonDecodeError
  /-- `ValueError`, e.g. from `datetime.fromisoformat` on a bad string. -/
  | valueError
  /-- `mysql.connector.ProgrammingError`, e.g. a parameter-count mismatch. -/
  | programmingError
  /-- `sqlite3.OperationalError` from a failing SQL statement. -/
  | operationalError
  /-- An I/O failure injected while writing a file. -/
  | ioError
  /-- A `requests` failure or a `json.loads` failure while fetching. -/
  | fetchError
deriving DecidableEq, Repr

/-! ## Python `datetime` -/

/-- A Python `datetime` value: calendar fields plus an optional UTC offset in
minutes (`none` models a naive datetime such as `datetime.now()`). -/
structure PyDateTime where
  year : Nat
  month : Nat
  day : Nat
  hour : Nat
  minute : Nat
  second : Nat
  microsecond : Nat
  utcoffset : Option Int
deriving DecidableEq, Repr

/-- Range constraint on the optional UTC offset: strictly less than 24 hours
in magnitude, as Python `timezone` requires. -/
def OffsetValid : Option Int → Prop
  | none => True
  | some m => -1439 ≤ m ∧ m ≤ 1439

instance : (o : Option Int) → Decidable (OffsetValid o)
  | none => isTrue trivial
  | some m => inferInstanceAs (Decidable (-1439 ≤ m ∧ m ≤ 1439))

/-- The field ranges of a constructible Python `datetime` (day relaxed to 31,
see the module comment). -/
def PyDateTime.Valid (dt : PyDateTime) : Prop :=
  1 ≤ dt.year ∧ dt.year ≤ 9999 ∧ 1 ≤ dt.month ∧ dt.month ≤ 12 ∧
  1 ≤ dt.day ∧ dt.day ≤ 31 ∧ dt.hour ≤ 23 ∧ dt.minute ≤ 59 ∧
  dt.second ≤ 59 ∧ dt.microsecond ≤ 999999 ∧ OffsetValid dt.utcoffset

instance (dt : PyDateTime) : Decidable dt.Valid := by
  unfold PyDateTime.Valid; infer_instance

/-- The character for a decimal digit. -/
def digitChar (n : Nat) : Char := Char.ofNat (48 + n)

/-- The value of a decimal digit character, `none` on a non-digit. -/
def digitVal? (c : Char) : Option Nat :=
  if '0' ≤ c ∧ c ≤ '9' then some (c.toNat - 48) else none

/-- Two-digit zero-padded decimal, as in `"%02d"`. -/
def pad2 (n : Nat) : List Char := [digitChar (n / 10 % 10), digitChar (n % 10)]

/-- Four-digit zero-padded decimal, as in `"%04d"`. -/
def pad4 (n : Nat) : List Char :=
  [digitChar (n / 1000 % 10), digitChar (n / 100 % 10),
   digitChar (n / 10 % 10), digitChar (n % 10)]

/-- Six-digit zero-padded decimal, as in `"%06d"`. -/
def pad6 (n : Nat) : List Char :=
  [digitChar (n / 100000 % 10), digitChar (n / 10000 % 10),
   digitChar (n / 1000 % 10), digitChar (n / 100 % 10),
   digitChar (n / 10 % 10), digitChar (n % 10)]

/-- The `.ffffff` fragment of `isoformat`: present iff the microsecond field
is nonzero. -/
def fracChars (us : Nat) : List Char :=
  if us = 0 then [] else '.' :: pad6 us

/-- The `+HH:MM` / `-HH:MM` fragment of `isoformat`: present iff the datetime
is aware. -/
def offsetChars : Option Int → List Char
  | none => []
  | some m =>
    (if 0 ≤ m then '+' else '-') :: (pad2 (m.natAbs / 60) ++ ':' :: pad2 (m.natAbs % 60))

/-- The character sequence produced by `datetime.isoformat()`. -/
def isoChars (dt : PyDateTime) : List Char :=
  pad4 dt.year ++ '-' :: pad2 dt.month ++ '-' :: pad2 dt.day ++
  'T' :: pad2 dt.hour ++ ':' :: pad2 dt.minute ++ ':' :: pad2 dt.second ++
  (fracChars dt.microsecond ++ offsetChars dt.utcoffset)

/-- `datetime.isoformat()`. -/
def PyDateTime.isoformat (dt : PyDateTime) : String := ⟨isoChars dt⟩

/-- Parse two digit characters. -/
def parse2 (a b : Char) : Option Nat :=
  match digitVal? a, digitVal? b with
  | some x, some y => some (10 * x + y)
  | _, _ => none

/-- Parse four digit characters. -/
def parse4 (a b c d : Char) : Option Nat :=
  match digitVal? a, digitVal? b, digitVal? c, digitVal? d with
  | some w, some x, some y, some z => some (1000 * w + 100 * x + 10 * y + z)
  | _, _, _, _ => none

/-- Parse six digit characters. -/
def parse6 (a b c d e f : Char) : Option Nat :=
  match digitVal? a, digitVal? b, digitVal? c, digitVal? d, digitVal? e, digitVal? f with
  | some u, some v, some w, some x, some y, some z =>
    some (100000 * u + 10000 * v + 1000 * w + 100 * x + 10 * y + z)
  | _, _, _, _, _, _ => none

/-- Parse the optional fractional-seconds fragment, returning the microsecond
value and the remaining characters. -/
def parseFrac : List Char → Option (Nat × List Char)
  | '.' :: a :: b :: c :: d :: e :: f :: rest =>
    match parse6 a b c d e f with
    | some n => some (n, rest)
    | none => none
  | rest => some (0, rest)

/-- Parse the optional trailing UTC-offset fragment. -/
def parseOffset : List Char → Option (Option Int)
  | [] => some none
  | '+' :: h1 :: h2 :: ':' :: m1 :: m2 :: [] =>
    match parse2 h1 h2, parse2 m1 m2 with
    | some h, some m =>
      if h ≤ 23 ∧ m ≤ 59 then some (some ((h * 60 + m : Nat) : Int)) else none
    | _, _ => none
  | '-' :: h1 :: h2 :: ':' :: m1 :: m2 :: [] =>
    match parse2 h1 h2, parse2 m1 m2 with
    | some h, some m =>
      if h ≤ 23 ∧ m ≤ 59 then some (some (-((h * 60 + m : Nat) : Int))) else none
    | _, _ => none
  | _ => none

/-- `datetime.fromisoformat` on a character sequence: `none` models a raised
`ValueError`.  Any single character is accepted as the date/time separator,
as in the CPython implementation. -/
def parseIso (cs : List Char) : Option PyDateTime :=
  match cs with
  | y1 :: y2 :: y3 :: y4 :: '-' :: a1 :: a2 :: '-' :: b1 :: b2 :: _ ::
    h1 :: h2 :: ':' :: n1 :: n2 :: ':' :: s1 :: s2 :: rest =>
    match parse4 y1 y2 y3 y4, parse2 a1 a2, parse2 b1 b2,
          parse2 h1 h2, parse2 n1 n2, parse2 s1 s2 with
    | some y, some mo, some d, some h, some mi, some s =>
      match parseFrac rest with
      | none => none
      | some (us, rest2) =>
        match parseOffset rest2 with
        | none => none
        | some off =>
          if 1 ≤ y ∧ 1 ≤ mo ∧ mo ≤ 12 ∧ 1 ≤ d ∧ d ≤ 31 ∧
             h ≤ 23 ∧ mi ≤ 59 ∧ s ≤ 59 then
            some ⟨y, mo, d, h, mi, s, us, off⟩
          else none
    | _, _, _, _, _, _ => none
  | _ => none

/-! ## Dynamically typed values and dicts -/

/-- A dynamically typed JSON/Python value, as held in payload dicts and in
`Station` fields (the Python code never coerces or inspects these values, so
floats are carried as exact rationals). -/
inductive JVal where
  | str (s : String)
  | int (n : Int)
  | num (q : Rat)
  | bool (b : Bool)
  | null
  | arr (xs : List JVal)

/-- A Python dict with string keys, as a key-ordered association list. -/
abbrev Dict := List (String × JVal)

/-- Dict lookup, first binding wins. -/
def Dict.get? (d : Dict) (k : String) : Option JVal :=
  (d.find? fun p => p.1 == k).map (fun p => p.2)

/-- `d[k]` on a dict: raises `KeyError(k)` when the key is missing. -/
def Dict.getItem (d : Dict) (k : String) : Except PyErr JVal :=
  match d.get? k with
  | some v => Except.ok v
  | none => Except.error (PyErr.keyError k)

/-- `v[i]` on a dynamic value: `IndexError` when out of range, `TypeError`
when the value is not a list. -/
def JVal.index (v : JVal) (i : Nat) : Except PyErr JVal :=
  match v with
  | JVal.arr xs =>
    match xs.get? i with
    | some x => Except.ok x
    | none => Except.error PyErr.indexError
  | _ => Except.error PyErr.typeError

/-! ## `Station`, `Station.to_repr`, `Station.from_repr`, `StationBuilder` -/

/-- The `Station` class: one timestamped observation of a bike-sharing
station.  Fields other than `measurement_dt` hold whatever dynamic values
were passed to the constructor, exactly as in Python. -/
structure Station where
  station_id : JVal
  name : JVal
  address : JVal
  bikes : JVal
  slots : JVal
  total_slots : JVal
  latitude : JVal
  longitude : JVal
  measurement_dt : PyDateTime
  city : JVal

/-- `Station.to_repr`: the dict written to the JSON file. -/
def Station.to_repr (s : Station) : Dict :=
  [(("id"), s.station_id),
   (("name"), s.name),
   (("address"), s.address),
   (("bikes"), s.bikes),
   (("slots"), s.slots),
   (("totalSlots"), s.total_slots),
   (("latitude"), s.latitude),
   (("longitude"), s.longitude),
   (("timestamp"), JVal.str s.measurement_dt.isoformat),
   (("city"), s.city)]

/-- `datetime.fromisoformat` on a dynamic value: `TypeError` on a non-string,
`ValueError` on an unparsable string. -/
def datetime_fromisoformat (v : JVal) : Except PyErr PyDateTime :=
  match v with
  | JVal.str s =>
    match parseIso s.data with
    | some dt => Except.ok dt
    | none => Except.error PyErr.valueError
  | _ => Except.error PyErr.typeError

/-- `Station.from_repr`: rebuild a `Station` from a stored dict.  Dict
subscripts are evaluated in the source's argument order and raise on a
missing key. -/
def Station.from_repr (raw_data : Dict) : Except PyErr Station := do
  let station_id ← raw_data.getItem ("id")
  let name ← raw_data.getItem ("name")
  let address ← raw_data.getItem ("address")
  let bikes ← raw_data.getItem ("bikes")
  let slots ← raw_data.getItem ("slots")
  let total_slots ← raw_data.getItem ("totalSlots")
  let latitude ← raw_data.getItem ("latitude")
  let longitude ← raw_data.getItem ("longitude")
  let ts ← raw_data.getItem ("timestamp")
  let measurement_dt ← datetime_fromisoformat ts
  let city ← raw_data.getItem ("city")
  Except.ok ⟨station_id, name, address, bikes, slots, total_slots,
             latitude, longitude, measurement_dt, city⟩

/-- `StationBuilder.from_trentino_data_hub_repr`: adapt one raw upstream
payload at the cycle's collection time for a city.  `raw_data["position"]`
is subscripted twice, as in the source. -/
def StationBuilder.from_trentino_data_hub_repr (raw_data : Dict)
    (collection_dt : PyDateTime) (city : String) : Except PyErr Station := do
  let station_id ← raw_data.getItem ("id")
  let name ← raw_data.getItem ("name")
  let address ← raw_data.getItem ("address")
  let bikes ← raw_data.getItem ("bikes")
  let slots ← raw_data.getItem ("slots")
  let total_slots ← raw_data.getItem ("totalSlots")
  let pos1 ← raw_data.getItem ("position")
  let latitude ← pos1.index 0
  let pos2 ← raw_data.getItem ("position")
  let longitude ← pos2.index 1
  Except.ok ⟨station_id, name, address, bikes, slots, total_slots,
             latitude, longitude, collection_dt, JVal.str city⟩

/-! ## File backend: `StationHandler` -/

/-- Observable state of the JSON file used by `StationHandler`:
missing, a well-formed JSON array of record dicts, or content that
`json.load` cannot parse (such as the empty file left behind when
`open(path, "w")` truncated it and the subsequent dump never completed). -/
inductive FileState where
  | absent
  | jsonArray (rs : List Dict)
  | corrupt

/-- `StationHandler.__init__`: writes an empty JSON array if and only if the
file does not exist. -/
def StationHandler.init (fs : FileState) : FileState :=
  match fs with
  | FileState.absent => FileState.jsonArray []
  | other => other

/-- Whether the write phase of a file save runs to completion or is
interrupted after the file has been opened for writing. -/
inductive WriteOutcome where
  | ok
  | failDuringWrite

/-- `StationHandler.save`: read the whole array, append the new records'
reprs, then reopen the file with mode `"w"` (which truncates it in place)
and dump the combined array.  Returns the post-state and the raised error,
if any.  An interrupted write leaves the truncated, unparsable file. -/
def StationHandler.save (stations : List Station) (w : WriteOutcome)
    (fs : FileState) : FileState × Option PyErr :=
  match fs with
  | FileState.absent => (FileState.absent, some PyErr.fileNotFound)
  | FileState.corrupt => (FileState.corrupt, some PyErr.jsonDecodeError)
  | FileState.jsonArray historical_stations =>
    let all_stations := historical_stations ++ stations.map Station.to_repr
    match w with
    | WriteOutcome.ok => (FileState.jsonArray all_stations, none)
    | WriteOutcome.failDuringWrite => (FileState.corrupt, some PyErr.ioError)

/-- Exception-propagating map, as a Python loop or comprehension that builds
a list and lets exceptions escape. -/
def mapExcept {α β : Type} (f : α → Except PyErr β) : List α → Except PyErr (List β)
  | [] => Except.ok []
  | x :: xs => do
    let y ← f x
    let ys ← mapExcept f xs
    Except.ok (y :: ys)

/-- `StationHandler.list`: load the array and rebuild every `Station`. -/
def StationHandler.list (fs : FileState) : Except PyErr (List Station) :=
  match fs with
  | FileState.absent => Except.error PyErr.fileNotFound
  | FileState.corrupt => Except.error PyErr.jsonDecodeError
  | FileState.jsonArray raw_stations => mapExcept Station.from_repr raw_stations

/-! ## Embedded relational backend: `StationHandlerSQLite` -/

/-- One row of the SQLite `station` table, in the column order of the
`INSERT` in `StationHandlerSQLite.save` (the auto-increment `id` column is
left implicit). -/
structure SRow where
  name : JVal
  address : JVal
  station_id : JVal
  bikes : JVal
  slots : JVal
  total_slots : JVal
  latitude : JVal
  longitude : JVal
  timestamp : String
  city : JVal

/-- The row inserted for one station. -/
def Station.toSRow (s : Station) : SRow :=
  ⟨s.name, s.address, s.station_id, s.bikes, s.slots, s.total_slots,
   s.latitude, s.longitude, s.measurement_dt.isoformat, s.city⟩

/-- `StationHandlerSQLite.__init__`: `CREATE TABLE IF NOT EXISTS` — creates
an empty table only when the store does not exist, never touching existing
rows. -/
def StationHandlerSQLite.init (db : Option (List SRow)) : Option (List SRow) :=
  match db with
  | none => some []
  | some rows => some rows

/-- An open SQLite connection: the committed table plus the uncommitted
inserts of the implicit transaction sqlite3 opens for data modification. -/
structure SqliteConn where
  committed : List SRow
  pending : List SRow

/-- The `for station in stations: cursor.execute(...)` loop.  `failAt k`
injects a failure of the k-th `execute`; a failed execute raises before
adding its row. -/
def sqliteInsertLoop (conn : SqliteConn) (rows : List SRow) (failAt : Option Nat)
    (i : Nat) : SqliteConn × Option PyErr :=
  match rows with
  | [] => (conn, none)
  | r :: rest =>
    if failAt = some i then (conn, some PyErr.operationalError)
    else sqliteInsertLoop { conn with pending := conn.pending ++ [r] } rest failAt (i + 1)

/-- `StationHandlerSQLite.save`: run every insert, then `conn.commit()` and
`conn.close()`.  When an execute raises, the exception propagates and the
connection is dropped without a commit, rolling the transaction back. -/
def StationHandlerSQLite.save (stations : List Station) (failAt : Option Nat)
    (db : List SRow) : List SRow × Option PyErr :=
  match sqliteInsertLoop ⟨db, []⟩ (stations.map Station.toSRow) failAt 0 with
  | (conn, some e) => (conn.committed, some e)
  | (conn, none) => (conn.committed ++ conn.pending, none)

/-- Rebuild a `Station` from one selected row, in the constructor-argument
order of `StationHandlerSQLite.list`. -/
def Station.ofSRow (r : SRow) : Except PyErr Station :=
  match parseIso r.timestamp.data with
  | some dt =>
    Except.ok ⟨r.station_id, r.name, r.address, r.bikes, r.slots, r.total_slots,
               r.latitude, r.longitude, dt, r.city⟩
  | none => Except.error PyErr.valueError

/-- `StationHandlerSQLite.list`: `SELECT` every row in row order. -/
def StationHandlerSQLite.list (db : List SRow) : Except PyErr (List Station) :=
  mapExcept Station.ofSRow db

/-! ## Networked relational backend: `StationHandlerMySQL` -/

/-- A row of the MySQL `station` table, as the tuple of parameters an
`execute` would insert. -/
abbrev MRow := List JVal

/-- `StationHandlerMySQL.__init__` sets `self.connection.autocommit = True`:
every statement is committed on its own, there is no per-batch
transaction. -/
def StationHandlerMySQL.autocommit : Bool := true

/-- The literal `INSERT` statement of `StationHandlerMySQL.save`. -/
def mysqlInsertQuery : String :=
  "INSERT into station (station_id, name, address, lat, lon, city, slots, bikes, total_slots, timestamp) VALUES (%s, %s, %s, %s, %s, %s, %s, %s, %s)"

/-- Count the `%s` parameter placeholders of a statement. -/
def countPlaceholders : List Char → Nat
  | '%' :: 's' :: rest => countPlaceholders rest + 1
  | _ :: rest => countPlaceholders rest
  | [] => 0

/-- The parameter tuple passed to `execute` for one station, in source
order. -/
def Station.mysqlArgs (s : Station) : MRow :=
  [s.station_id, s.name, s.address, s.latitude, s.longitude, s.city,
   s.slots, s.bikes, s.total_slots, JVal.str s.measurement_dt.isoformat]

/-- `cursor.execute(query, args)` on the auto-committing connection: a
parameter-count mismatch raises `ProgrammingError` without touching the
table; otherwise the row is inserted and immediately committed. -/
def mysqlExecute (args : MRow) (db : List MRow) : List MRow × Option PyErr :=
  if countPlaceholders mysqlInsertQuery.data = args.length then
    (db ++ [args], none)
  else
    (db, some PyErr.programmingError)

/-- The `for station in stations` loop of `StationHandlerMySQL.save`: a
raised exception propagates at once. -/
def mysqlSaveLoop (stations : List Station) (db : List MRow) : List MRow × Option PyErr :=
  match stations with
  | [] => (db, none)
  | st :: rest =>
    match mysqlExecute st.mysqlArgs db with
    | (db2, some e) => (db2, some e)
    | (db2, none) => mysqlSaveLoop rest db2

/-- `StationHandlerMySQL.save`. -/
def StationHandlerMySQL.save (stations : List Station) (db : List MRow) :
    List MRow × Option PyErr :=
  mysqlSaveLoop stations db

/-- Rebuild a `Station` from one selected MySQL row, in the
constructor-argument order of `StationHandlerMySQL.list` (tuple unpacking
raises `ValueError` on a row of the wrong width). -/
def Station.ofMRow (r : MRow) : Except PyErr Station :=
  match r with
  | [station_id, name, address, lat, lon, city, slots, bikes, total_slots, ts] =>
    match datetime_fromisoformat ts with
    | Except.ok dt =>
      Except.ok ⟨station_id, name, address, bikes, slots, total_slots,
                 lat, lon, dt, city⟩
    | Except.error e => Except.error e
  | _ => Except.error PyErr.valueError

/-- `StationHandlerMySQL.list`. -/
def StationHandlerMySQL.list (db : List MRow) : Except PyErr (List Station) :=
  mapExcept Station.ofMRow db

/-- `StationHandlerMySQL.__init__` only opens a connection and switches it
to autocommit; it runs no DDL or DML, so the stored rows are untouched. -/
def StationHandlerMySQL.init (db : List MRow) : List MRow := db

/-! ## The collection loop of `__main__` -/

/-- Adapt every raw payload fetched for one city, at the cycle's collection
time. -/
def collectCity (collection_dt : PyDateTime) (city : String)
    (bike_stations : List Dict) : Except PyErr (List Station) :=
  mapExcept (fun raw => StationBuilder.from_trentino_data_hub_repr raw collection_dt city)
    bike_stations

/-- One collection cycle over the configured `(city, fetch outcome)` pairs,
in their fixed order: the collection time is captured once, before any
fetch; each city's records are appended in order; a failed fetch or parse
aborts the cycle at once. -/
def runCycle (collection_dt : PyDateTime) :
    List (String × Except PyErr (List Dict)) → Except PyErr (List Station)
  | [] => Except.ok []
  | (city, fetched) :: rest => do
    let bike_stations ← fetched
    let stations ← collectCity collection_dt city bike_stations
    let more ← runCycle collection_dt rest
    Except.ok (stations ++ more)

/-- One cycle followed by the single `station_handler.save`, over the file
backend: a cycle error propagates before `save` is reached, leaving the
store untouched. -/
def cycleAndSaveFile (collection_dt : PyDateTime)
    (sources : List (String × Except PyErr (List Dict)))
    (fs : FileState) : FileState × Option PyErr :=
  match runCycle collection_dt sources with
  | Except.error e => (fs, some e)
  | Except.ok new_stations => StationHandler.save new_stations WriteOutcome.ok fs

/-- Whether an `Except` is a raised error. -/
def isError {α : Type} : Except PyErr α → Bool
  | Except.error _ => true
  | Except.ok _ => false

/-! ## Required keys of the upstream payload -/

/-- The keys `from_trentino_data_hub_repr` subscripts, hence requires. -/
def requiredKeys : List String :=
  [("id"), ("name"), ("address"), ("bikes"), ("slots"), ("totalSlots"), ("position")]

/-- The first required key missing from a payload, in the adapter's
subscript order. -/
def firstMissingKey (raw : Dict) : Option String :=
  if (raw.get? ("id")).isNone then some ("id")
  else if (raw.get? ("name")).isNone then some ("name")
  else if (raw.get? ("address")).isNone then some ("address")
  else if (raw.get? ("bikes")).isNone then some ("bikes")
  else if (raw.get? ("slots")).isNone then some ("slots")
  else if (raw.get? ("totalSlots")).isNone then some ("totalSlots")
  else if (raw.get? ("position")).isNone then some ("position")
  else none

/-! ## Concrete example data (the worked example of the specification) -/

/-- The raw payload of the specification's adapter example. -/
def c8raw : Dict :=
  [(("id"), JVal.str ("42")),
   (("name"), JVal.str ("Main St")),
   (("address"), JVal.str ("1 Main St")),
   (("bikes"), JVal.int 3),
   (("slots"), JVal.int 7),
   (("totalSlots"), JVal.int 10),
   (("position"), JVal.arr [JVal.num ((4607 : Rat) / 100), JVal.num ((1112 : Rat) / 100)])]

/-- The collection time `2024-01-01T12:00:00` of the example (naive, zero
microseconds, as `datetime.now()` readings can be). -/
def c8dt : PyDateTime := ⟨2024, 1, 1, 12, 0, 0, 0, none⟩

/-- The station the example payload adapts to. -/
def exampleStation : Station :=
  ⟨JVal.str ("42"), JVal.str ("Main St"), JVal.str ("1 Main St"),
   JVal.int 3, JVal.int 7, JVal.int 10,
   JVal.num ((4607 : Rat) / 100), JVal.num ((1112 : Rat) / 100),
   c8dt, JVal.str ("trento")⟩

/-- A second, distinct station used for two-call scenarios. -/
def exampleStation2 : Station :=
  ⟨JVal.str ("43"), JVal.str ("Piazza Dante"), JVal.str ("2 Piazza Dante"),
   JVal.int 5, JVal.int 4, JVal.int 9,
   JVal.num ((4606 : Rat) / 100), JVal.num ((1111 : Rat) / 100),
   c8dt, JVal.str ("rovereto")⟩

/-- The example payload with the `bikes` key removed. -/
def c9rawMissing : Dict :=
  [(("id"), JVal.str ("42")),
   (("name"), JVal.str ("Main St")),
   (("address"), JVal.str ("1 Main St")),
   (("slots"), JVal.int 7),
   (("totalSlots"), JVal.int 10),
   (("position"), JVal.arr [JVal.num ((4607 : Rat) / 100), JVal.num ((1112 : Rat) / 100)])]

/-- The example payload with negative counts, which the adapter must accept
unchanged. -/
def c9rawNegative : Dict :=
  [(("id"), JVal.str ("42")),
   (("name"), JVal.str ("Main St")),
   (("address"), JVal.str ("1 Main St")),
   (("bikes"), JVal.int (-5)),
   (("slots"), JVal.int (-2)),
   (("totalSlots"), JVal.int (-1)),
   (("position"), JVal.arr [JVal.num ((4607 : Rat) / 100), JVal.num ((1112 : Rat) / 100)])]

/-! ## Round trip of the `datetime` wire format -/

theorem digitVal_digitChar (n : Nat) (h : n < 10) :
    digitVal? (digitChar n) = some n := by
  interval_cases n <;> rfl

theorem parse2_pad2 (n : Nat) :
    parse2 (digitChar (n / 10 % 10)) (digitChar (n % 10)) = some (n / 10 % 10 * 10 + n % 10) := by
  unfold parse2
  rw [digitVal_digitChar _ (by omega), digitVal_digitChar _ (by omega)]
  simp only [Option.some.injEq]
  omega

theorem parse2_pad2_small (n : Nat) (h : n < 100) :
    parse2 (digitChar (n / 10 % 10)) (digitChar (n % 10)) = some n := by
  rw [parse2_pad2]
  simp only [Option.some.injEq]
  omega

theorem parse4_pad4 (n : Nat) (h : n < 10000) :
    parse4 (digitChar (n / 1000 % 10)) (digitChar (n / 100 % 10))
      (digitChar (n / 10 % 10)) (digitChar (n % 10)) = some n := by
  unfold parse4
  rw [digitVal_digitChar _ (by omega), digitVal_digitChar _ (by omega),
      digitVal_digitChar _ (by omega), digitVal_digitChar _ (by omega)]
  simp only [Option.some.injEq]
  omega

theorem parse6_pad6 (n : Nat) (h : n < 1000000) :
    parse6 (digitChar (n / 100000 % 10)) (digitChar (n / 10000 % 10))
      (digitChar (n / 1000 % 10)) (digitChar (n / 100 % 10))
      (digitChar (n / 10 % 10)) (digitChar (n % 10)) = some n := by
  unfold parse6
  rw [digitVal_digitChar _ (by omega), digitVal_digitChar _ (by omega),
      digitVal_digitChar _ (by omega), digitVal_digitChar _ (by omega),
      digitVal_digitChar _ (by omega), digitVal_digitChar _ (by omega)]
  simp only [Option.some.injEq]
  omega

theorem parseOffset_offsetChars (o : Option Int) (h : OffsetValid o) :
    parseOffset (offsetChars o) = some o := by
  match o with
  | none => rfl
  | some m =>
    have hb : m.natAbs ≤ 1439 := by
      unfold OffsetValid at h; omega
    simp only [offsetChars]
    by_cases hm : 0 ≤ m
    · rw [if_pos hm]
      unfold pad2
      simp only [List.cons_append, List.nil_append]
      simp only [parseOffset]
      rw [parse2_pad2_small _ (by omega), parse2_pad2_small _ (by omega)]
      show (if m.natAbs / 60 ≤ 23 ∧ m.natAbs % 60 ≤ 59 then
              some (some ((m.natAbs / 60 * 60 + m.natAbs % 60 : Nat) : Int))
            else none) = some (some m)
      rw [if_pos (by omega)]
      simp only [Option.some.injEq]
      omega
    · rw [if_neg hm]
      unfold pad2
      simp only [List.cons_append, List.nil_append]
      simp only [parseOffset]
      rw [parse2_pad2_small _ (by omega), parse2_pad2_small _ (by omega)]
      show (if m.natAbs / 60 ≤ 23 ∧ m.natAbs % 60 ≤ 59 then
              some (some (-((m.natAbs / 60 * 60 + m.natAbs % 60 : Nat) : Int)))
            else none) = some (some m)
      rw [if_pos (by omega)]
      simp only [Option.some.injEq]
      omega

theorem parseFrac_fracChars (us : Nat) (o : Option Int) (h : us ≤ 999999) :
    parseFrac (fracChars us ++ offsetChars o) = some (us, offsetChars o) := by
  unfold fracChars
  by_cases h0 : us = 0
  · rw [if_pos h0]
    subst h0
    simp only [List.nil_append]
    match o with
    | none => rfl
    | some m =>
      simp only [offsetChars]
      by_cases hm : 0 ≤ m
      · rw [if_pos hm]
        unfold pad2
        simp only [List.cons_append, List.nil_append]
        rfl
      · rw [if_neg hm]
        unfold pad2
        simp only [List.cons_append, List.nil_append]
        rfl
  · rw [if_neg h0]
    unfold pad6
    simp only [List.cons_append, List.nil_append]
    simp only [parseFrac]
    rw [parse6_pad6 _ (by omega)]

theorem parseIso_isoChars (dt : PyDateTime) (h : dt.Valid) :
    parseIso (isoChars dt) = some dt := by
  obtain ⟨hy1, hy2, hmo1, hmo2, hd1, hd2, hh, hmi, hs, hus, hoff⟩ := h
  unfold isoChars pad4 pad2
  simp only [List.cons_append, List.nil_append, List.append_assoc]
  simp only [parseIso]
  rw [parse4_pad4 _ (by omega),
      parse2_pad2_small _ (by omega), parse2_pad2_small _ (by omega),
      parse2_pad2_small _ (by omega), parse2_pad2_small _ (by omega),
      parse2_pad2_small _ (by omega)]
  rw [parseFrac_fracChars _ _ (by omega)]
  show (match parseOffset (offsetChars dt.utcoffset) with
        | none => none
        | some off =>
          if 1 ≤ dt.year ∧ 1 ≤ dt.month ∧ dt.month ≤ 12 ∧ 1 ≤ dt.day ∧ dt.day ≤ 31 ∧
             dt.hour ≤ 23 ∧ dt.minute ≤ 59 ∧ dt.second ≤ 59 then
            some (⟨dt.year, dt.month, dt.day, dt.hour, dt.minute, dt.second,
                   dt.microsecond, off⟩ : PyDateTime)
          else none) = some dt
  rw [parseOffset_offsetChars _ hoff]
  show (if 1 ≤ dt.year ∧ 1 ≤ dt.month ∧ dt.month ≤ 12 ∧ 1 ≤ dt.day ∧ dt.day ≤ 31 ∧
           dt.hour ≤ 23 ∧ dt.minute ≤ 59 ∧ dt.second ≤ 59 then
          some (⟨dt.year, dt.month, dt.day, dt.hour, dt.minute, dt.second,
                 dt.microsecond, dt.utcoffset⟩ : PyDateTime)
        else none) = some dt
  rw [if_pos (by omega)]

/-! ## Generic lemmas about `Except` chains -/

theorem ok_bind {α β : Type} (a : α) (f : α → Except PyErr β) :
    (Except.ok a >>= f) = f a := rfl

theorem error_bind {α β : Type} (e : PyErr) (f : α → Except PyErr β) :
    ((Except.error e : Except PyErr α) >>= f) = Except.error e := rfl

theorem bind_eq_ok {α β : Type} {x : Except PyErr α} {f : α → Except PyErr β} {b : β} :
    x >>= f = Except.ok b ↔ ∃ a, x = Except.ok a ∧ f a = Except.ok b := by
  cases x with
  | ok a => simp [ok_bind]
  | error e => simp [error_bind]

/-! ## Round trip: adapt, serialize, deserialize -/

theorem from_trentino_measurement_dt (raw : Dict) (dt : PyDateTime) (city : String)
    (s : Station)
    (h : StationBuilder.from_trentino_data_hub_repr raw dt city = Except.ok s) :
    s.measurement_dt = dt := by
  simp only [StationBuilder.from_trentino_data_hub_repr, bind_eq_ok] at h
  obtain ⟨a1, h1, a2, h2, a3, h3, a4, h4, a5, h5, a6, h6, a7, h7, a8, h8, a9, h9,
          a10, h10, hok⟩ := h
  cases hok
  rfl

theorem from_repr_to_repr (s : Station) (h : s.measurement_dt.Valid) :
    Station.from_repr (Station.to_repr s) = Except.ok s := by
  have hp : parseIso (isoChars s.measurement_dt) = some s.measurement_dt :=
    parseIso_isoChars _ h
  simp [Station.from_repr, Station.to_repr, Dict.getItem, Dict.get?, List.find?,
        datetime_fromisoformat, PyDateTime.isoformat, hp, ok_bind]

/-! ## Lemmas about the SQLite transaction discipline -/

theorem sqliteInsertLoop_committed (rows : List SRow) (failAt : Option Nat)
    (i : Nat) (conn : SqliteConn) :
    (sqliteInsertLoop conn rows failAt i).1.committed = conn.committed := by
  induction rows generalizing i conn with
  | nil => rfl
  | cons r rest ih =>
    unfold sqliteInsertLoop
    by_cases hf : failAt = some i
    · rw [if_pos hf]
    · rw [if_neg hf]
      exact ih (i + 1) _

theorem sqliteInsertLoop_fail_err (rows : List SRow) (k i : Nat) (conn : SqliteConn)
    (h1 : i ≤ k) (h2 : k < i + rows.length) :
    (sqliteInsertLoop conn rows (some k) i).2 = some PyErr.operationalError := by
  induction rows generalizing i conn with
  | nil => simp at h2; omega
  | cons r rest ih =>
    unfold sqliteInsertLoop
    by_cases hk : k = i
    · rw [if_pos (by rw [hk])]
    · rw [if_neg (by simp; omega)]
      exact ih (i + 1) _ (by omega) (by simp at h2 ⊢; omega)

theorem sqliteInsertLoop_none (rows : List SRow) (i : Nat) (conn : SqliteConn) :
    sqliteInsertLoop conn rows none i =
      ({ committed := conn.committed, pending := conn.pending ++ rows }, none) := by
  induction rows generalizing i conn with
  | nil => simp [sqliteInsertLoop]
  | cons r rest ih =>
    unfold sqliteInsertLoop
    rw [if_neg (by simp)]
    rw [ih]
    simp

theorem sqlite_save_fail (stations : List Station) (k : Nat) (db : List SRow)
    (h : k < stations.length) :
    StationHandlerSQLite.save stations (some k) db = (db, some PyErr.operationalError) := by
  have h1 := sqliteInsertLoop_committed (stations.map Station.toSRow) (some k) 0 ⟨db, []⟩
  have h2 := sqliteInsertLoop_fail_err (stations.map Station.toSRow) k 0 ⟨db, []⟩
    (by omega) (by simpa using h)
  unfold StationHandlerSQLite.save
  rcases hl : sqliteInsertLoop ⟨db, []⟩ (stations.map Station.toSRow) (some k) 0 with ⟨conn, err⟩
  rw [hl] at h1 h2
  simp only at h1 h2
  rw [h2]
  simp [h1]

theorem sqlite_save_ok (stations : List Station) (db : List SRow) :
    StationHandlerSQLite.save stations none db =
      (db ++ stations.map Station.toSRow, none) := by
  unfold StationHandlerSQLite.save
  rw [sqliteInsertLoop_none]
  rfl

/-! ## Lemmas about the MySQL insert statement -/

theorem countPlaceholders_mysqlInsertQuery :
    countPlaceholders mysqlInsertQuery.data = 9 := by rfl

theorem mysqlArgs_length (s : Station) : s.mysqlArgs.length = 10 := rfl

theorem mysql_save_nonempty (st : Station) (rest : List Station) (db : List MRow) :
    StationHandlerMySQL.save (st :: rest) db = (db, some PyErr.programmingError) := by
  unfold StationHandlerMySQL.save mysqlSaveLoop mysqlExecute
  rw [countPlaceholders_mysqlInsertQuery, mysqlArgs_length]
  rw [if_neg (by omega)]

/-! ## Lemmas about the collection cycle -/

theorem mapExcept_ok_forall {α β : Type} (f : α → Except PyErr β) (P : β → Prop)
    (hf : ∀ a b, f a = Except.ok b → P b) :
    ∀ (xs : List α) (ys : List β), mapExcept f xs = Except.ok ys → ∀ y ∈ ys, P y := by
  intro xs
  induction xs with
  | nil =>
    intro ys h y hy
    simp only [mapExcept] at h
    cases h
    cases hy
  | cons x xs ih =>
    intro ys h y hy
    simp only [mapExcept, bind_eq_ok] at h
    obtain ⟨b, hb, ys2, hys2, hok⟩ := h
    cases hok
    rcases List.mem_cons.mp hy with rfl | hmem
    · exact hf x y hb
    · exact ih ys2 hys2 y hmem

theorem runCycle_measurement_dt (dtv : PyDateTime)
    (sources : List (String × Except PyErr (List Dict))) (batch : List Station)
    (h : runCycle dtv sources = Except.ok batch) :
    ∀ st ∈ batch, st.measurement_dt = dtv := by
  induction sources generalizing batch with
  | nil =>
    simp only [runCycle] at h
    cases h
    intro st hst
    cases hst
  | cons p rest ih =>
    obtain ⟨city, fetched⟩ := p
    simp only [runCycle, bind_eq_ok] at h
    obtain ⟨raws, hraw, sts, hsts, more, hmore, hok⟩ := h
    cases hok
    intro st hst
    rcases List.mem_append.mp hst with h1 | h2
    · simp only [collectCity] at hsts
      exact mapExcept_ok_forall _ _
        (fun a b hb => from_trentino_measurement_dt a dtv city b hb) raws sts hsts st h1
    · exact ih more hmore st h2

theorem runCycle_error_of_mem (dtv : PyDateTime)
    (sources : List (String × Except PyErr (List Dict))) (city : String) (e : PyErr)
    (h : (city, Except.error e) ∈ sources) :
    ∃ e2, runCycle dtv sources = Except.error e2 := by
  induction sources with
  | nil => cases h
  | cons p rest ih =>
    rcases List.mem_cons.mp h with heq | hmem
    · cases heq
      exact ⟨e, by simp [runCycle, error_bind]⟩
    · obtain ⟨c0, f0⟩ := p
      cases f0 with
      | error e0 => exact ⟨e0, by simp [runCycle, error_bind]⟩
      | ok raws =>
        cases hc : collectCity dtv c0 raws with
        | error ec => exact ⟨ec, by simp [runCycle, ok_bind, hc, error_bind]⟩
        | ok sts =>
          obtain ⟨e2, h2⟩ := ih hmem
          exact ⟨e2, by simp [runCycle, ok_bind, hc, h2, error_bind]⟩

theorem get_of_not_isNone {o : Option JVal} (h : ¬(o.isNone = true)) :
    ∃ v, o = some v := by
  cases o with
  | none => simp at h
  | some v => exact ⟨v, rfl⟩

/-! ## The claims -/

/-- C8: `from_trentino_data_hub_repr` maps the specification's example
payload (id "42", bikes 3, slots 7, totalSlots 10, position
[46.07, 11.12]) at collection time 2024-01-01T12:00:00 for city "trento"
to the expected record: bikes/slots/totalSlots carried unchanged, latitude
from position[0], longitude from position[1], the city label attached, and
the collection time as the record's timestamp (whose ISO form is
"2024-01-01T12:00:00"). -/
theorem c8_adapt_example :
    StationBuilder.from_trentino_data_hub_repr c8raw c8dt ("trento") =
      Except.ok exampleStation ∧
    PyDateTime.isoformat c8dt = "2024-01-01T12:00:00" :=
  ⟨rfl, rfl⟩

/-- C5: constructing a backend twice on the same location leaves the same
observable store state as constructing it once, for all three handlers:
the file handler writes an empty array only when the file is missing, the
SQLite handler issues `CREATE TABLE IF NOT EXISTS`, and the MySQL handler's
constructor performs no store mutation at all. -/
theorem c5_init_idempotent :
    (∀ fs : FileState,
       StationHandler.init (StationHandler.init fs) = StationHandler.init fs) ∧
    (∀ db : Option (List SRow),
       StationHandlerSQLite.init (StationHandlerSQLite.init db) =
         StationHandlerSQLite.init db) ∧
    (∀ db : List MRow,
       StationHandlerMySQL.init (StationHandlerMySQL.init db) =
         StationHandlerMySQL.init db) := by
  refine ⟨fun fs => ?_, fun db => ?_, fun db => rfl⟩
  · cases fs <;> rfl
  · cases db <;> rfl

/-- C10: constructing the file backend on a location whose file already
exists — whatever its contents, even unparsable ones — leaves the file
bit-for-bit unchanged; the empty-array dump happens only in the
missing-file branch. -/
theorem c10_init_preserves_existing_file (fs : FileState)
    (h : fs ≠ FileState.absent) : StationHandler.init fs = fs := by
  cases fs with
  | absent => exact absurd rfl h
  | jsonArray rs => rfl
  | corrupt => rfl

theorem c10_init_preserves_existing_file_witness :
    FileState.jsonArray [Station.to_repr exampleStation] ≠ FileState.absent ∧
    StationHandler.init (FileState.jsonArray [Station.to_repr exampleStation]) =
      FileState.jsonArray [Station.to_repr exampleStation] :=
  ⟨fun h => FileState.noConfusion h,
   c10_init_preserves_existing_file _ (fun h => FileState.noConfusion h)⟩

/-- C2 counterexample: the file backend does not write to a temporary
location and swap; it truncates the target in place.  Concretely, with one
previously persisted record on file (shown readable by `list`), a save
whose write step fails leaves the file corrupt, and `list` then fails —
the previously persisted record is lost, contradicting the claim. -/
theorem c2_failed_write_corrupts_store :
    StationHandler.list (FileState.jsonArray [Station.to_repr exampleStation]) =
      Except.ok [exampleStation] ∧
    StationHandler.save [exampleStation2] WriteOutcome.failDuringWrite
        (FileState.jsonArray [Station.to_repr exampleStation]) =
      (FileState.corrupt, some PyErr.ioError) ∧
    StationHandler.list FileState.corrupt = Except.error PyErr.jsonDecodeError :=
  ⟨rfl, rfl, rfl⟩

/-- C2 amended: `StationHandler.save` rewrites the store file in place —
a completed save appends the new records' reprs after all prior ones, but
the write phase begins by truncating the file, so a save interrupted
during the write leaves the file corrupt and every previously persisted
record unreadable. -/
theorem c2_file_save_rewrites_in_place :
    (∀ (stations : List Station) (rs : List Dict),
       StationHandler.save stations WriteOutcome.ok (FileState.jsonArray rs) =
         (FileState.jsonArray (rs ++ stations.map Station.to_repr), none)) ∧
    (∀ (stations : List Station) (rs : List Dict),
       StationHandler.save stations WriteOutcome.failDuringWrite (FileState.jsonArray rs) =
         (FileState.corrupt, some PyErr.ioError)) ∧
    (∀ (stations : List Station) (rs : List Dict),
       StationHandler.list
           (StationHandler.save stations WriteOutcome.failDuringWrite
             (FileState.jsonArray rs)).1 =
         Except.error PyErr.jsonDecodeError) :=
  ⟨fun _ _ => rfl, fun _ _ => rfl, fun _ _ => rfl⟩

/-- C1: the claim is right about the intended behaviour but the MySQL
backend's code cannot save at all: its `INSERT` lists ten columns and is
given ten values, yet contains only nine `%s` placeholders, so
`cursor.execute` raises on the first record of every nonempty batch.  Two
sequential one-record saves therefore persist nothing and `list()` returns
0 records, not 2.  (The file and SQLite backends do append correctly; see
the theorems about `StationHandler.save` and `StationHandlerSQLite.save`.) -/
theorem c1_mysql_save_loses_all_records :
    countPlaceholders mysqlInsertQuery.data = 9 ∧
    (Station.mysqlArgs exampleStation).length = 10 ∧
    StationHandlerMySQL.save [exampleStation] [] = ([], some PyErr.programmingError) ∧
    StationHandlerMySQL.save [exampleStation2]
        (StationHandlerMySQL.save [exampleStation] []).1 =
      ([], some PyErr.programmingError) ∧
    StationHandlerMySQL.list
        (StationHandlerMySQL.save [exampleStation2]
          (StationHandlerMySQL.save [exampleStation] []).1).1 =
      Except.ok [] :=
  ⟨rfl, rfl, rfl, rfl, rfl⟩

/-- C3 counterexample: the MySQL handler is configured to auto-commit each
statement (no per-batch transaction), and its save of a concrete two-record
batch issues no insert at all — it raises on the first record — rather than
issuing all per-record inserts of the batch inside a single transaction. -/
theorem c3_mysql_not_single_transaction :
    StationHandlerMySQL.autocommit = true ∧
    StationHandlerMySQL.save [exampleStation, exampleStation2] [] =
      ([], some PyErr.programmingError) :=
  ⟨rfl, rfl⟩

/-- C3 amended: the SQLite backend does run the whole batch in one
transaction committed at the end — a failure at any record of the batch
leaves the store unchanged, and a completed save appends every record —
while the MySQL backend auto-commits per statement and, as written, fails
on the first record of every nonempty batch (parameter-count mismatch),
so it persists nothing and the store is left unchanged vacuously. -/
theorem c3_sqlite_atomic_mysql_never_inserts :
    (∀ (stations : List Station) (k : Nat) (db : List SRow), k < stations.length →
       StationHandlerSQLite.save stations (some k) db =
         (db, some PyErr.operationalError)) ∧
    (∀ (stations : List Station) (db : List SRow),
       StationHandlerSQLite.save stations none db =
         (db ++ stations.map Station.toSRow, none)) ∧
    (∀ (st : Station) (rest : List Station) (db : List MRow),
       StationHandlerMySQL.save (st :: rest) db =
         (db, some PyErr.programmingError)) :=
  ⟨fun stations k db h => sqlite_save_fail stations k db h,
   fun stations db => sqlite_save_ok stations db,
   fun st rest db => mysql_save_nonempty st rest db⟩

theorem c3_sqlite_atomic_mysql_never_inserts_witness :
    (0 : Nat) < 2 ∧
    StationHandlerSQLite.save [exampleStation, exampleStation2] (some 0) [] =
      ([], some PyErr.operationalError) ∧
    StationHandlerSQLite.save [exampleStation] none [] =
      ([Station.toSRow exampleStation], none) ∧
    StationHandlerMySQL.save [exampleStation] [] =
      ([], some PyErr.programmingError) :=
  ⟨by decide,
   c3_sqlite_atomic_mysql_never_inserts.1 [exampleStation, exampleStation2] 0 []
     (by decide),
   c3_sqlite_atomic_mysql_never_inserts.2.1 [exampleStation] [],
   c3_sqlite_atomic_mysql_never_inserts.2.2 exampleStation [] []⟩

/-- C4: any record the adapter produces, when serialized through the file
wire format (`to_repr`) and deserialized back (`from_repr`), is recovered
equal in every field — in particular the ISO-8601 timestamp string written
by `isoformat` parses back to the identical `datetime` (for any
constructible collection time, naive or with a UTC offset). -/
theorem c4_adapt_serialize_roundtrip (raw : Dict) (dt : PyDateTime) (city : String)
    (s : Station)
    (h1 : StationBuilder.from_trentino_data_hub_repr raw dt city = Except.ok s)
    (h2 : dt.Valid) :
    Station.from_repr (Station.to_repr s) = Except.ok s := by
  have hdt := from_trentino_measurement_dt raw dt city s h1
  exact from_repr_to_repr s (by rw [hdt]; exact h2)

theorem c4_adapt_serialize_roundtrip_witness :
    StationBuilder.from_trentino_data_hub_repr c8raw c8dt ("trento") =
      Except.ok exampleStation ∧
    c8dt.Valid ∧
    Station.from_repr (Station.to_repr exampleStation) = Except.ok exampleStation :=
  ⟨rfl, by decide,
   c4_adapt_serialize_roundtrip c8raw c8dt ("trento") exampleStation rfl (by decide)⟩

/-- C6: the collection time is a single value captured once per cycle
before any fetch (`runCycle` closes over exactly one `collection_dt`, as
`datetime.now()` is read once before the city loop), and every record of
the cycle's batch — across all configured cities — carries that same
timestamp. -/
theorem c6_single_timestamp_per_cycle (dtv : PyDateTime)
    (sources : List (String × Except PyErr (List Dict))) (batch : List Station)
    (h : runCycle dtv sources = Except.ok batch) :
    ∀ st ∈ batch, st.measurement_dt = dtv :=
  runCycle_measurement_dt dtv sources batch h

theorem c6_single_timestamp_per_cycle_witness :
    runCycle c8dt [(("trento"), Except.ok [c8raw])] = Except.ok [exampleStation] ∧
    exampleStation.measurement_dt = c8dt :=
  ⟨rfl,
   c6_single_timestamp_per_cycle c8dt [(("trento"), Except.ok [c8raw])]
     [exampleStation] rfl exampleStation (List.mem_singleton.mpr rfl)⟩

/-- C7: if the fetch (or body parse) of any city in the cycle fails, the
whole cycle evaluates to a raised error — `save` is never reached — and
the store is left exactly as it was, with the cycle reporting the error. -/
theorem c7_failed_fetch_aborts_cycle (dtv : PyDateTime)
    (sources : List (String × Except PyErr (List Dict))) (fs : FileState)
    (city : String) (e : PyErr)
    (h : (city, Except.error e) ∈ sources) :
    isError (runCycle dtv sources) = true ∧
    (cycleAndSaveFile dtv sources fs).1 = fs ∧
    ((cycleAndSaveFile dtv sources fs).2).isSome = true := by
  obtain ⟨e2, h2⟩ := runCycle_error_of_mem dtv sources city e h
  refine ⟨?_, ?_, ?_⟩ <;> simp [isError, cycleAndSaveFile, h2]

theorem c7_failed_fetch_aborts_cycle_witness :
    ((("rovereto"), (Except.error PyErr.fetchError : Except PyErr (List Dict))) ∈
      [(("trento"), Except.ok [c8raw]),
       (("rovereto"), (Except.error PyErr.fetchError : Except PyErr (List Dict)))]) ∧
    isError (runCycle c8dt
      [(("trento"), Except.ok [c8raw]),
       (("rovereto"), Except.error PyErr.fetchError)]) = true ∧
    (cycleAndSaveFile c8dt
      [(("trento"), Except.ok [c8raw]),
       (("rovereto"), Except.error PyErr.fetchError)]
      (FileState.jsonArray [Station.to_repr exampleStation])).1 =
      FileState.jsonArray [Station.to_repr exampleStation] := by
  have h := c7_failed_fetch_aborts_cycle c8dt
    [(("trento"), Except.ok [c8raw]),
     (("rovereto"), Except.error PyErr.fetchError)]
    (FileState.jsonArray [Station.to_repr exampleStation])
    ("rovereto") PyErr.fetchError
    (List.mem_cons_of_mem _ (List.mem_singleton.mpr rfl))
  exact ⟨List.mem_cons_of_mem _ (List.mem_singleton.mpr rfl), h.1, h.2.1⟩

/-- C9: a payload missing a required key makes the adapter raise a
`KeyError` naming the first missing key in subscript order (so the error
always names a missing required field), a payload missing any required key
does make it raise (coverage of `firstMissingKey`), and a payload with all
required keys present undergoes no numeric validation: every value —
negative counts included — is carried into the record unchanged. -/
theorem c9_missing_key_or_no_validation :
    (∀ (raw : Dict) (dt : PyDateTime) (city : String) (k : String),
       firstMissingKey raw = some k →
       k ∈ requiredKeys ∧ raw.get? k = none ∧
       StationBuilder.from_trentino_data_hub_repr raw dt city =
         Except.error (PyErr.keyError k)) ∧
    (∀ (raw : Dict) (k : String), k ∈ requiredKeys → raw.get? k = none →
       (firstMissingKey raw).isSome = true) ∧
    (∀ (raw : Dict) (dt : PyDateTime) (city : String)
       (i n a b sl t p0 p1 : JVal) (ps : List JVal),
       raw.get? ("id") = some i → raw.get? ("name") = some n →
       raw.get? ("address") = some a → raw.get? ("bikes") = some b →
       raw.get? ("slots") = some sl → raw.get? ("totalSlots") = some t →
       raw.get? ("position") = some (JVal.arr ps) →
       ps[0]? = some p0 → ps[1]? = some p1 →
       StationBuilder.from_trentino_data_hub_repr raw dt city =
         Except.ok ⟨i, n, a, b, sl, t, p0, p1, dt, JVal.str city⟩) := by
  refine ⟨?_, ?_, ?_⟩
  · intro raw dt city k hk
    unfold firstMissingKey at hk
    split_ifs at hk with h1 h2 h3 h4 h5 h6 h7
    · cases hk
      refine ⟨by simp [requiredKeys], Option.isNone_iff_eq_none.mp h1, ?_⟩
      simp [StationBuilder.from_trentino_data_hub_repr, Dict.getItem,
            Option.isNone_iff_eq_none.mp h1, error_bind]
    · cases hk
      obtain ⟨v1, hv1⟩ := get_of_not_isNone h1
      refine ⟨by simp [requiredKeys], Option.isNone_iff_eq_none.mp h2, ?_⟩
      simp [StationBuilder.from_trentino_data_hub_repr, Dict.getItem, hv1,
            Option.isNone_iff_eq_none.mp h2, ok_bind, error_bind]
    · cases hk
      obtain ⟨v1, hv1⟩ := get_of_not_isNone h1
      obtain ⟨v2, hv2⟩ := get_of_not_isNone h2
      refine ⟨by simp [requiredKeys], Option.isNone_iff_eq_none.mp h3, ?_⟩
      simp [StationBuilder.from_trentino_data_hub_repr, Dict.getItem, hv1, hv2,
            Option.isNone_iff_eq_none.mp h3, ok_bind, error_bind]
    · cases hk
      obtain ⟨v1, hv1⟩ := get_of_not_isNone h1
      obtain ⟨v2, hv2⟩ := get_of_not_isNone h2
      obtain ⟨v3, hv3⟩ := get_of_not_isNone h3
      refine ⟨by simp [requiredKeys], Option.isNone_iff_eq_none.mp h4, ?_⟩
      simp [StationBuilder.from_trentino_data_hub_repr, Dict.getItem, hv1, hv2,
            hv3, Option.isNone_iff_eq_none.mp h4, ok_bind, error_bind]
    · cases hk
      obtain ⟨v1, hv1⟩ := get_of_not_isNone h1
      obtain ⟨v2, hv2⟩ := get_of_not_isNone h2
      obtain ⟨v3, hv3⟩ := get_of_not_isNone h3
      obtain ⟨v4, hv4⟩ := get_of_not_isNone h4
      refine ⟨by simp [requiredKeys], Option.isNone_iff_eq_none.mp h5, ?_⟩
      simp [StationBuilder.from_trentino_data_hub_repr, Dict.getItem, hv1, hv2,
            hv3, hv4, Option.isNone_iff_eq_none.mp h5, ok_bind, error_bind]
    · cases hk
      obtain ⟨v1, hv1⟩ := get_of_not_isNone h1
      obtain ⟨v2, hv2⟩ := get_of_not_isNone h2
      obtain ⟨v3, hv3⟩ := get_of_not_isNone h3
      obtain ⟨v4, hv4⟩ := get_of_not_isNone h4
      obtain ⟨v5, hv5⟩ := get_of_not_isNone h5
      refine ⟨by simp [requiredKeys], Option.isNone_iff_eq_none.mp h6, ?_⟩
      simp [StationBuilder.from_trentino_data_hub_repr, Dict.getItem, hv1, hv2,
            hv3, hv4, hv5, Option.isNone_iff_eq_none.mp h6, ok_bind, error_bind]
    · cases hk
      obtain ⟨v1, hv1⟩ := get_of_not_isNone h1
      obtain ⟨v2, hv2⟩ := get_of_not_isNone h2
      obtain ⟨v3, hv3⟩ := get_of_not_isNone h3
      obtain ⟨v4, hv4⟩ := get_of_not_isNone h4
      obtain ⟨v5, hv5⟩ := get_of_not_isNone h5
      obtain ⟨v6, hv6⟩ := get_of_not_isNone h6
      refine ⟨by simp [requiredKeys], Option.isNone_iff_eq_none.mp h7, ?_⟩
      simp [StationBuilder.from_trentino_data_hub_repr, Dict.getItem, hv1, hv2,
            hv3, hv4, hv5, hv6, Option.isNone_iff_eq_none.mp h7, ok_bind,
            error_bind]
  · intro raw k hkmem hknone
    unfold firstMissingKey
    split_ifs with h1 h2 h3 h4 h5 h6 h7
    · rfl
    · rfl
    · rfl
    · rfl
    · rfl
    · rfl
    · rfl
    · simp only [requiredKeys, List.mem_cons, List.not_mem_nil, or_false] at hkmem
      rcases hkmem with rfl | rfl | rfl | rfl | rfl | rfl | rfl
      · exact absurd (by simp [hknone]) h1
      · exact absurd (by simp [hknone]) h2
      · exact absurd (by simp [hknone]) h3
      · exact absurd (by simp [hknone]) h4
      · exact absurd (by simp [hknone]) h5
      · exact absurd (by simp [hknone]) h6
      · exact absurd (by simp [hknone]) h7
  · intro raw dt city i n a b sl t p0 p1 ps hg1 hg2 hg3 hg4 hg5 hg6 hg7 hp0 hp1
    simp [StationBuilder.from_trentino_data_hub_repr, Dict.getItem, JVal.index,
          hg1, hg2, hg3, hg4, hg5, hg6, hg7, hp0, hp1, ok_bind]

theorem c9_missing_key_or_no_validation_witness :
    firstMissingKey c9rawMissing = some ("bikes") ∧
    StationBuilder.from_trentino_data_hub_repr c9rawMissing c8dt ("trento") =
      Except.error (PyErr.keyError ("bikes")) ∧
    StationBuilder.from_trentino_data_hub_repr c9rawNegative c8dt ("trento") =
      Except.ok ⟨JVal.str ("42"), JVal.str ("Main St"), JVal.str ("1 Main St"),
        JVal.int (-5), JVal.int (-2), JVal.int (-1),
        JVal.num ((4607 : Rat) / 100), JVal.num ((1112 : Rat) / 100),
        c8dt, JVal.str ("trento")⟩ :=
  ⟨rfl,
   (c9_missing_key_or_no_validation.1 c9rawMissing c8dt ("trento") ("bikes") rfl).2.2,
   c9_missing_key_or_no_validation.2.2 c9rawNegative c8dt ("trento") _ _ _ _ _ _ _ _ _
     rfl rfl rfl rfl rfl rfl rfl rfl rfl⟩

